import Mathlib

/-!
Verification of the SQS batch processor in `src/functions/dlq-demo.ts`
(the `processRecord` function and the exported `handler`).

The TypeScript code is embedded shallowly:
* `async` functions returning a promise that may reject are modelled as
  `Except JsError α`: `Except.ok` is a resolved promise, `Except.error` a
  rejected one.
* The ECMAScript builtin `JSON.parse` (external library code, not part of
  this repository) is abstracted by its only observables in `processRecord`:
  whether the body string parses, whether the parsed value is the JSON
  literal `null` (on which the property access `body.type` itself throws a
  `TypeError`), and otherwise the value of the parsed value in its `type`
  property when that property is a string (`body.type === \"...\"` can only
  be true for a string property; a missing or non-string property compares
  unequal to every string literal).
* `Promise.all` over the list of already-started per-record promises is
  modelled by `promiseAll`, which resolves with the list of results when
  every promise resolves and rejects (with the first rejection in list
  order) otherwise.
-/

namespace DlqDemo

/-- A record body as observed through the ECMAScript builtin `JSON.parse`
and the subsequent property access `body.type`:
* `invalid` — the body string is not valid JSON, `JSON.parse` throws a
  `SyntaxError`;
* `nullValue` — the body is the JSON literal `null`; `JSON.parse` succeeds
  but the property access `body.type` throws a `TypeError`;
* `parsed typeField` — the body parses to any other JSON value;
  `typeField = some s` when the `type` property of the value is the string `s`,
  and `typeField = none` when the property is absent or not a string (in
  which case `body.type === \"...\"` is false for every string literal). -/
inductive Body where
  | invalid : Body
  | nullValue : Body
  | parsed (typeField : Option String) : Body
deriving Repr, DecidableEq

/-- The JavaScript error values thrown in `dlq-demo.ts`:
`BusinessLogicError` and `TemporaryError` are the two custom `Error`
subclasses defined at the top of the file, `jsError` is a plain `Error`,
`syntaxError` is the `SyntaxError` thrown by `JSON.parse` on invalid input,
and `typeError` is the `TypeError` thrown by accessing `.type` on `null`. -/
inductive JsError where
  | businessLogicError (message : String) : JsError
  | temporaryError (message : String) : JsError
  | jsError (message : String) : JsError
  | syntaxError : JsError
  | typeError : JsError
deriving Repr, DecidableEq

/-- `SQSRecord` (the fields `processRecord` and `handler` read, plus
delivery metadata that the processor never reads — kept to state that the
result is independent of it). -/
structure SQSRecord where
  messageId : String
  body : Body
  /-- Delivery metadata owned by the queue system (attribute
  `ApproximateReceiveCount`); never read by the processor. -/
  approximateReceiveCount : Nat
  /-- More delivery metadata (the receipt handle); never read. -/
  receiptHandle : String
deriving Repr, DecidableEq

/-- `interface ProcessingResult` from `dlq-demo.ts`. -/
structure ProcessingResult where
  success : Bool
  messageId : String
  error : Option JsError
deriving Repr, DecidableEq

/-- The `try { ... }` block of `processRecord`, after `JSON.parse` has
already produced a value: evaluating `body.type` (which throws a
`TypeError` when the parsed value is `null`), the three `if` branches that
`throw`, and the final successful `return`.  `Except.error` is a thrown
exception that the surrounding `catch` will receive. -/
def processRecordTry (record : SQSRecord) (body : Body) :
    Except JsError ProcessingResult :=
  match body with
  | Body.invalid => Except.error JsError.syntaxError
  | Body.nullValue => Except.error JsError.typeError
  | Body.parsed typeField =>
    if typeField = some "business-error" then
      Except.error (JsError.businessLogicError "Invalid business logic")
    else if typeField = some "temporary-error" then
      Except.error (JsError.temporaryError "Temporary processing error")
    else if typeField = some "timeout" then
      -- `await new Promise(resolve => setTimeout(resolve, 5000))` is a pure
      -- delay: it always resolves (after 5 s) and is then followed by the
      -- unconditional `throw new Error(\"Operation timed out\")`.
      Except.error (JsError.jsError "Operation timed out")
    else
      Except.ok { success := true, messageId := record.messageId, error := none }

/-- `processRecord` from `dlq-demo.ts`.  Note that in the source the line
`const body = JSON.parse(record.body);` stands BEFORE the `try` block, so a
`SyntaxError` from `JSON.parse` is not caught: it rejects the returned
promise (`Except.error`).  Every exception thrown inside the `try` block is
caught and converted into a failed `ProcessingResult`. -/
def processRecord (record : SQSRecord) : Except JsError ProcessingResult :=
  match record.body with
  | Body.invalid => Except.error JsError.syntaxError
  | b =>
    match processRecordTry record b with
    | Except.ok result => Except.ok result
    | Except.error e =>
      Except.ok { success := false, messageId := record.messageId, error := some e }

structure SQSEvent where
  Records : List SQSRecord
deriving Repr, DecidableEq

structure BatchItemFailure where
  itemIdentifier : String
deriving Repr, DecidableEq

structure SQSBatchResponse where
  batchItemFailures : List BatchItemFailure
deriving Repr, DecidableEq

/-- `Promise.all` over a list of already-settled promises: resolves with
the list of results when every promise resolved, rejects with the first
rejection otherwise. -/
def promiseAll : List (Except JsError ProcessingResult) →
    Except JsError (List ProcessingResult)
  | [] => Except.ok []
  | p :: ps =>
    match p with
    | Except.error e => Except.error e
    | Except.ok r =>
      match promiseAll ps with
      | Except.error e => Except.error e
      | Except.ok rs => Except.ok (r :: rs)

/-- The body of the `results.forEach` loop in `handler`, restricted to its
effect on `batchItemFailures`: a failed result pushes
`{ itemIdentifier: result.messageId }`, a successful one pushes nothing. -/
def failEntry (result : ProcessingResult) : Option BatchItemFailure :=
  if result.success then none
  else some { itemIdentifier := result.messageId }

/-- The classification performed by the `if/else if/else` chain inside the
`results.forEach` loop of `handler` (observability: which log line is
emitted for a result). -/
inductive LogClassification where
  | dlqAfterMaxRetries : LogClassification
  | retryTemporary : LogClassification
  | retryUnknown : LogClassification
  | success : LogClassification
deriving Repr, DecidableEq

/-- Which branch of the `forEach` body a result takes:
`result.error instanceof BusinessLogicError` logs the will-be-sent-to-DLQ
line, `instanceof TemporaryError` logs the will-retry line, any other
failure logs the unknown-error line, and a success logs the success line. -/
def classifyResult (result : ProcessingResult) : LogClassification :=
  if result.success then LogClassification.success
  else
    match result.error with
    | some (JsError.businessLogicError _) => LogClassification.dlqAfterMaxRetries
    | some (JsError.temporaryError _) => LogClassification.retryTemporary
    | _ => LogClassification.retryUnknown

/-- `handler` from `dlq-demo.ts`: start `processRecord` for every record
(the `for` loop pushing promises), `await Promise.all`, then scan the
results in order, collecting a failure entry per unsuccessful result, and
return `{ batchItemFailures }`.  A rejection of any per-record promise
rejects `Promise.all` and hence the handler itself. -/
def handler (event : SQSEvent) : Except JsError SQSBatchResponse :=
  let processingPromises := event.Records.map processRecord
  match promiseAll processingPromises with
  | Except.error e => Except.error e
  | Except.ok results =>
    Except.ok { batchItemFailures := results.filterMap failEntry }

/-- The per-record processing succeeded (promise resolved, success flag set). -/
def recordSucceeds (r : SQSRecord) : Prop :=
  ∃ res, processRecord r = Except.ok res ∧ res.success = true

/-- The per-record processing resolved to a failure outcome. -/
def recordFails (r : SQSRecord) : Prop :=
  ∃ res, processRecord r = Except.ok res ∧ res.success = false

/-! Branch lemmas for `processRecord`. -/

theorem processRecord_invalid {r : SQSRecord} (h : r.body = Body.invalid) :
    processRecord r = Except.error JsError.syntaxError := by
  simp [processRecord, h]

theorem processRecord_nullValue {r : SQSRecord} (h : r.body = Body.nullValue) :
    processRecord r =
      Except.ok { success := false, messageId := r.messageId,
                  error := some JsError.typeError } := by
  simp [processRecord, h, processRecordTry]

theorem processRecord_business {r : SQSRecord}
    (h : r.body = Body.parsed (some "business-error")) :
    processRecord r =
      Except.ok { success := false, messageId := r.messageId,
                  error := some (JsError.businessLogicError "Invalid business logic") } := by
  simp [processRecord, h, processRecordTry]

theorem processRecord_temporary {r : SQSRecord}
    (h : r.body = Body.parsed (some "temporary-error")) :
    processRecord r =
      Except.ok { success := false, messageId := r.messageId,
                  error := some (JsError.temporaryError "Temporary processing error") } := by
  simp [processRecord, h, processRecordTry]

theorem processRecord_timeout {r : SQSRecord}
    (h : r.body = Body.parsed (some "timeout")) :
    processRecord r =
      Except.ok { success := false, messageId := r.messageId,
                  error := some (JsError.jsError "Operation timed out") } := by
  simp [processRecord, h, processRecordTry]

theorem processRecord_otherPayload {r : SQSRecord} {t : Option String}
    (h : r.body = Body.parsed t)
    (h1 : t ≠ some "business-error") (h2 : t ≠ some "temporary-error")
    (h3 : t ≠ some "timeout") :
    processRecord r =
      Except.ok { success := true, messageId := r.messageId, error := none } := by
  simp [processRecord, h, processRecordTry, h1, h2, h3]

/-! Characterization of `promiseAll` and `handler`. -/

theorem promiseAll_ok_imp {ps : List (Except JsError ProcessingResult)}
    {rs : List ProcessingResult} (h : promiseAll ps = Except.ok rs) :
    ps = rs.map Except.ok := by
  induction ps generalizing rs with
  | nil =>
    simp only [promiseAll] at h
    injection h with h
    subst h
    rfl
  | cons p ps ih =>
    cases p with
    | error e => simp [promiseAll] at h
    | ok r =>
      simp only [promiseAll] at h
      split at h
      · simp at h
      · next rs' hps =>
          injection h with h
          subst h
          simp [ih hps]

theorem promiseAll_map_ok (rs : List ProcessingResult) :
    promiseAll (rs.map Except.ok) = Except.ok rs := by
  induction rs with
  | nil => rfl
  | cons r rs ih => simp [promiseAll, ih]

theorem handler_ok_iff {e : SQSEvent} {resp : SQSBatchResponse} :
    handler e = Except.ok resp ↔
      ∃ rs : List ProcessingResult, e.Records.map processRecord = rs.map Except.ok ∧
        resp = ⟨rs.filterMap failEntry⟩ := by
  constructor
  · intro h
    simp only [handler] at h
    split at h
    · simp at h
    · next rs hps =>
        injection h with h
        exact ⟨rs, promiseAll_ok_imp hps, h.symm⟩
  · rintro ⟨rs, h1, rfl⟩
    simp only [handler, h1, promiseAll_map_ok]

/-- The per-record view of the failure entry a record contributes: `none`
when its promise rejects or its result is successful, and the pushed
`{ itemIdentifier }` entry when its result is a failure. -/
def recordFailEntry (r : SQSRecord) : Option BatchItemFailure :=
  match processRecord r with
  | Except.ok res => failEntry res
  | Except.error _ => none

theorem filterMap_failEntry_eq {l : List SQSRecord} {rs : List ProcessingResult}
    (h : l.map processRecord = rs.map Except.ok) :
    rs.filterMap failEntry = l.filterMap recordFailEntry := by
  induction l generalizing rs with
  | nil =>
    cases rs with
    | nil => rfl
    | cons res rs => simp at h
  | cons r l ih =>
    cases rs with
    | nil => simp at h
    | cons res rs =>
      simp only [List.map_cons, List.cons.injEq] at h
      obtain ⟨h1, h2⟩ := h
      have hr : recordFailEntry r = failEntry res := by
        unfold recordFailEntry
        rw [h1]
      rw [List.filterMap_cons, List.filterMap_cons, hr, ih h2]

theorem processRecord_ok_spec {r : SQSRecord} {res : ProcessingResult}
    (h : processRecord r = Except.ok res) :
    res.messageId = r.messageId ∧ (res.error.isSome ↔ res.success = false) := by
  cases hb : r.body with
  | invalid =>
    rw [processRecord_invalid hb] at h
    simp at h
  | nullValue =>
    rw [processRecord_nullValue hb] at h
    injection h with h
    subst h
    exact ⟨rfl, by simp⟩
  | parsed t =>
    by_cases h1 : t = some "business-error"
    · rw [processRecord_business (h1 ▸ hb)] at h
      injection h with h
      subst h
      exact ⟨rfl, by simp⟩
    · by_cases h2 : t = some "temporary-error"
      · rw [processRecord_temporary (h2 ▸ hb)] at h
        injection h with h
        subst h
        exact ⟨rfl, by simp⟩
      · by_cases h3 : t = some "timeout"
        · rw [processRecord_timeout (h3 ▸ hb)] at h
          injection h with h
          subst h
          exact ⟨rfl, by simp⟩
        · rw [processRecord_otherPayload hb h1 h2 h3] at h
          injection h with h
          subst h
          exact ⟨rfl, by simp⟩

theorem recordFailEntry_eq_some {r : SQSRecord} {b : BatchItemFailure} :
    recordFailEntry r = some b ↔ recordFails r ∧ b = { itemIdentifier := r.messageId } := by
  unfold recordFailEntry
  cases hp : processRecord r with
  | error e => simp [recordFails, hp]
  | ok res =>
    have hm := (processRecord_ok_spec hp).1
    cases hs : res.success with
    | true => simp [failEntry, hs, recordFails, hp]
    | false =>
      simp [failEntry, hs, recordFails, hp, hm]
      exact eq_comm

theorem mem_map_ok {l : List SQSRecord} {rs : List ProcessingResult}
    (h : l.map processRecord = rs.map Except.ok) :
    ∀ r ∈ l, ∃ res, processRecord r = Except.ok res := by
  intro r hr
  have hmem : processRecord r ∈ rs.map Except.ok := h ▸ List.mem_map_of_mem _ hr
  obtain ⟨res, _, hres⟩ := List.mem_map.mp hmem
  exact ⟨res, hres.symm⟩

theorem not_recordFails_iff {r : SQSRecord}
    (h : ∃ res, processRecord r = Except.ok res) :
    ¬ recordFails r ↔ recordSucceeds r := by
  obtain ⟨res, hres⟩ := h
  simp only [recordFails, recordSucceeds, hres, Except.ok.injEq]
  cases hs : res.success <;> simp [hs]

theorem recordFails_not_succ {r : SQSRecord}
    (hf : recordFails r) (hs : recordSucceeds r) : False := by
  obtain ⟨res, hres, hfalse⟩ := hf
  obtain ⟨res2, hres2, htrue⟩ := hs
  rw [hres] at hres2
  injection hres2 with hres2
  subst hres2
  rw [hfalse] at htrue
  cases htrue

theorem failIds_sublist (l : List SQSRecord) :
    ((l.filterMap recordFailEntry).map BatchItemFailure.itemIdentifier).Sublist
      (l.map SQSRecord.messageId) := by
  rw [List.map_filterMap]
  induction l with
  | nil => simp
  | cons r l ih =>
    rw [List.filterMap_cons, List.map_cons]
    cases hg : (recordFailEntry r).map BatchItemFailure.itemIdentifier with
    | none => exact ih.cons _
    | some s =>
      obtain ⟨b, hb, hbid⟩ := Option.map_eq_some'.mp hg
      obtain ⟨-, rfl⟩ := recordFailEntry_eq_some.mp hb
      rw [← hbid]
      exact ih.cons₂ _

theorem mem_failIds_iff {l : List SQSRecord}
    (hnodup : (l.map SQSRecord.messageId).Nodup)
    {r : SQSRecord} (hr : r ∈ l) :
    r.messageId ∈ (l.filterMap recordFailEntry).map BatchItemFailure.itemIdentifier ↔
      recordFails r := by
  rw [List.map_filterMap]
  constructor
  · intro hmem
    obtain ⟨r2, hr2, hg⟩ := List.mem_filterMap.mp hmem
    obtain ⟨b, hb, hbid⟩ := Option.map_eq_some'.mp hg
    obtain ⟨hfail, rfl⟩ := recordFailEntry_eq_some.mp hb
    have heq : r2 = r := List.inj_on_of_nodup_map hnodup hr2 hr hbid
    exact heq ▸ hfail
  · intro hfail
    apply List.mem_filterMap.mpr
    refine ⟨r, hr, ?_⟩
    rw [recordFailEntry_eq_some.mpr ⟨hfail, rfl⟩]
    rfl

theorem processRecord_congr {r r' : SQSRecord}
    (hid : r.messageId = r'.messageId) (hb : r.body = r'.body) :
    processRecord r = processRecord r' := by
  obtain ⟨mid, b, rc, rh⟩ := r
  obtain ⟨mid2, b2, rc2, rh2⟩ := r'
  cases hid
  cases hb
  cases b <;> simp [processRecord, processRecordTry]

theorem map_processRecord_eq {l1 l2 : List SQSRecord}
    (h : l1.map (fun r => (r.messageId, r.body)) =
         l2.map (fun r => (r.messageId, r.body))) :
    l1.map processRecord = l2.map processRecord := by
  induction l1 generalizing l2 with
  | nil =>
    cases l2 with
    | nil => rfl
    | cons r l => simp at h
  | cons r l ih =>
    cases l2 with
    | nil => simp at h
    | cons r2 l2 =>
      simp only [List.map_cons, List.cons.injEq, Prod.mk.injEq] at h
      obtain ⟨⟨hid, hb⟩, ht⟩ := h
      simp only [List.map_cons, List.cons.injEq]
      exact ⟨processRecord_congr hid hb, ih ht⟩

/-! Claim theorems. -/

/-- C1: the claim states that `processRecord` resolves to a
`ProcessingResult` for every record, including one with an unparsable
body, and that the handler therefore never propagates an unhandled fault.
The code violates this: `const body = JSON.parse(record.body)` stands
before the `try` block, so on a non-JSON body the `SyntaxError` rejects
the per-record promise, `Promise.all` rejects, and the handler aborts the
whole batch — here even though the sibling record would have succeeded.
This theorem evaluates the embedded code at that failing input. -/
theorem dlq_C1_code_bug :
    processRecord { messageId := "m1", body := Body.invalid,
                    approximateReceiveCount := 1, receiptHandle := "rh1" } =
      Except.error JsError.syntaxError ∧
    handler { Records :=
        [{ messageId := "m1", body := Body.invalid,
           approximateReceiveCount := 1, receiptHandle := "rh1" },
         { messageId := "m2", body := Body.parsed (some "ok"),
           approximateReceiveCount := 1, receiptHandle := "rh2" }] } =
      Except.error JsError.syntaxError :=
  ⟨rfl, rfl⟩

/-- C2: for every batch with distinct message identifiers on which the
handler resolves, the returned `batchItemFailures` identifiers form a
subset of the input identifiers, contain no duplicates, contain a
message's identifier exactly when its processing resolved to a failure,
and omit it exactly when its processing succeeded. -/
theorem dlq_C2 (e : SQSEvent) (resp : SQSBatchResponse)
    (hok : handler e = Except.ok resp)
    (hnodup : (e.Records.map SQSRecord.messageId).Nodup) :
    (∀ x ∈ resp.batchItemFailures.map BatchItemFailure.itemIdentifier,
        x ∈ e.Records.map SQSRecord.messageId) ∧
    (resp.batchItemFailures.map BatchItemFailure.itemIdentifier).Nodup ∧
    (∀ r ∈ e.Records,
        (r.messageId ∈ resp.batchItemFailures.map BatchItemFailure.itemIdentifier ↔
          recordFails r)) ∧
    (∀ r ∈ e.Records,
        (r.messageId ∉ resp.batchItemFailures.map BatchItemFailure.itemIdentifier ↔
          recordSucceeds r)) := by
  obtain ⟨rs, hmap, rfl⟩ := handler_ok_iff.mp hok
  have hfe : rs.filterMap failEntry = e.Records.filterMap recordFailEntry :=
    filterMap_failEntry_eq hmap
  simp only [hfe]
  refine ⟨?_, ?_, ?_, ?_⟩
  · intro x hx
    exact (failIds_sublist e.Records).subset hx
  · exact List.Nodup.sublist (failIds_sublist e.Records) hnodup
  · intro r hr
    exact mem_failIds_iff hnodup hr
  · intro r hr
    have hiff := mem_failIds_iff hnodup hr
    have hex := mem_map_ok hmap r hr
    constructor
    · intro hnot
      exact (not_recordFails_iff hex).mp (fun hf => hnot (hiff.mpr hf))
    · intro hsucc hmem
      exact recordFails_not_succ (hiff.mp hmem) hsucc

/-- Witness for C2: a concrete two-record batch (one success, one
business-error failure) satisfying both hypotheses; the no-duplicates
conjunct instantiated there. -/
theorem dlq_C2_witness :
    handler { Records :=
        [{ messageId := "m1", body := Body.parsed (some "ok"),
           approximateReceiveCount := 1, receiptHandle := "a" },
         { messageId := "m2", body := Body.parsed (some "business-error"),
           approximateReceiveCount := 1, receiptHandle := "b" }] } =
      Except.ok { batchItemFailures := [{ itemIdentifier := "m2" }] } ∧
    (["m1", "m2"] : List String).Nodup ∧
    (([{ itemIdentifier := "m2" }] : List BatchItemFailure).map
        BatchItemFailure.itemIdentifier).Nodup :=
  ⟨rfl, by decide,
    (dlq_C2 { Records :=
        [{ messageId := "m1", body := Body.parsed (some "ok"),
           approximateReceiveCount := 1, receiptHandle := "a" },
         { messageId := "m2", body := Body.parsed (some "business-error"),
           approximateReceiveCount := 1, receiptHandle := "b" }] }
      { batchItemFailures := [{ itemIdentifier := "m2" }] }
      rfl (by decide)).2.1⟩

/-- C3 counterexample: the claim says every parsable payload other than
the three special types yields a success outcome, but the body `null`
parses as JSON (it is not an unparsable body and carries none of the
three type values), and `processRecord` still resolves to a FAILURE
outcome: the property access `body.type` throws a `TypeError` inside the
`try` block, which the `catch` converts into a failed result. -/
theorem dlq_C3_counterexample :
    ({ messageId := "m-null", body := Body.nullValue,
       approximateReceiveCount := 1, receiptHandle := "rh" } : SQSRecord).body ≠
      Body.invalid ∧
    processRecord { messageId := "m-null", body := Body.nullValue,
                    approximateReceiveCount := 1, receiptHandle := "rh" } =
      Except.ok { success := false, messageId := "m-null",
                  error := some JsError.typeError } :=
  ⟨by decide, rfl⟩

/-- C3 (amended): for every record whose body parses as JSON,
`processRecord` resolves to a failure outcome carrying a
`BusinessLogicError` when the payload type field is `business-error`, a
failure carrying a `TemporaryError` when it is `temporary-error`, a
failure carrying a generic `Error` (after the simulated delay) when it is
`timeout`, a failure carrying the `TypeError` thrown by the property
access when the payload is the JSON literal `null`, and a success outcome
for every other payload. -/
theorem dlq_C3 (r : SQSRecord) (hparse : r.body ≠ Body.invalid) :
    (r.body = Body.parsed (some "business-error") →
      processRecord r = Except.ok { success := false, messageId := r.messageId,
                                    error := some (JsError.businessLogicError "Invalid business logic") }) ∧
    (r.body = Body.parsed (some "temporary-error") →
      processRecord r = Except.ok { success := false, messageId := r.messageId,
                                    error := some (JsError.temporaryError "Temporary processing error") }) ∧
    (r.body = Body.parsed (some "timeout") →
      processRecord r = Except.ok { success := false, messageId := r.messageId,
                                    error := some (JsError.jsError "Operation timed out") }) ∧
    (r.body = Body.nullValue →
      processRecord r = Except.ok { success := false, messageId := r.messageId,
                                    error := some JsError.typeError }) ∧
    (∀ t, r.body = Body.parsed t →
      t ≠ some "business-error" → t ≠ some "temporary-error" → t ≠ some "timeout" →
      processRecord r = Except.ok { success := true, messageId := r.messageId,
                                    error := none }) := by
  refine ⟨processRecord_business, processRecord_temporary, processRecord_timeout,
    processRecord_nullValue, ?_⟩
  intro t ht h1 h2 h3
  exact processRecord_otherPayload ht h1 h2 h3

/-- Witness for C3: the business-error branch instantiated at a concrete
record with a parsable body. -/
theorem dlq_C3_witness :
    processRecord { messageId := "m1", body := Body.parsed (some "business-error"),
                    approximateReceiveCount := 1, receiptHandle := "rh" } =
      Except.ok { success := false, messageId := "m1",
                  error := some (JsError.businessLogicError "Invalid business logic") } :=
  (dlq_C3 { messageId := "m1", body := Body.parsed (some "business-error"),
            approximateReceiveCount := 1, receiptHandle := "rh" }
    (by decide)).1 rfl

/-- C4: for a batch of exactly 3 messages whose bodies are
`{"type":"ok"}`, `{"type":"business-error"}`, `{"type":"temporary-error"}`
in that order, the handler returns exactly the identifiers of the 2nd and
3rd messages as `batchItemFailures`, and (for distinct identifiers) the
1st identifier is never included. -/
theorem dlq_C4 (r1 r2 r3 : SQSRecord)
    (h1 : r1.body = Body.parsed (some "ok"))
    (h2 : r2.body = Body.parsed (some "business-error"))
    (h3 : r3.body = Body.parsed (some "temporary-error")) :
    handler { Records := [r1, r2, r3] } =
      Except.ok { batchItemFailures :=
        [{ itemIdentifier := r2.messageId }, { itemIdentifier := r3.messageId }] } ∧
    (r1.messageId ≠ r2.messageId → r1.messageId ≠ r3.messageId →
      ({ itemIdentifier := r1.messageId } : BatchItemFailure) ∉
        [({ itemIdentifier := r2.messageId } : BatchItemFailure),
         { itemIdentifier := r3.messageId }]) := by
  have p1 := processRecord_otherPayload h1 (by simp) (by simp) (by simp)
  have p2 := processRecord_business h2
  have p3 := processRecord_temporary h3
  constructor
  · simp [handler, p1, p2, p3, promiseAll, failEntry]
  · intro hne1 hne2
    simp [BatchItemFailure.mk.injEq, hne1, hne2]

/-- Witness for C4: the batch instantiated with concrete records
`m1`, `m2`, `m3`. -/
theorem dlq_C4_witness :
    handler { Records :=
        [{ messageId := "m1", body := Body.parsed (some "ok"),
           approximateReceiveCount := 1, receiptHandle := "a" },
         { messageId := "m2", body := Body.parsed (some "business-error"),
           approximateReceiveCount := 1, receiptHandle := "b" },
         { messageId := "m3", body := Body.parsed (some "temporary-error"),
           approximateReceiveCount := 1, receiptHandle := "c" }] } =
      Except.ok { batchItemFailures :=
        [{ itemIdentifier := "m2" }, { itemIdentifier := "m3" }] } :=
  (dlq_C4 { messageId := "m1", body := Body.parsed (some "ok"),
            approximateReceiveCount := 1, receiptHandle := "a" }
          { messageId := "m2", body := Body.parsed (some "business-error"),
            approximateReceiveCount := 1, receiptHandle := "b" }
          { messageId := "m3", body := Body.parsed (some "temporary-error"),
            approximateReceiveCount := 1, receiptHandle := "c" }
          rfl rfl rfl).1

/-- C5: the empty batch resolves (no rejection) to a response whose
`batchItemFailures` list is empty. -/
theorem dlq_C5 : handler { Records := [] } = Except.ok { batchItemFailures := [] } :=
  rfl

/-- C6: processing a `business-error` payload is idempotent under
redelivery: any two records carrying that payload (regardless of
identifier or delivery metadata) resolve to failure outcomes with the
same success flag and the same `BusinessLogicError` classification, and
the handler's `forEach` classification selects the
will-be-sent-to-DLQ log branch for both. -/
theorem dlq_C6 (r r' : SQSRecord)
    (h : r.body = Body.parsed (some "business-error"))
    (h' : r'.body = Body.parsed (some "business-error")) :
    processRecord r = Except.ok { success := false, messageId := r.messageId,
                                  error := some (JsError.businessLogicError "Invalid business logic") } ∧
    (∀ res res', processRecord r = Except.ok res → processRecord r' = Except.ok res' →
      res.success = res'.success ∧ res.error = res'.error ∧
      classifyResult res = LogClassification.dlqAfterMaxRetries ∧
      classifyResult res' = LogClassification.dlqAfterMaxRetries) := by
  have hr := processRecord_business h
  have hr' := processRecord_business h'
  refine ⟨hr, ?_⟩
  intro res res' he he'
  rw [hr] at he
  rw [hr'] at he'
  injection he with he
  injection he' with he'
  subst he
  subst he'
  exact ⟨rfl, rfl, rfl, rfl⟩

/-- Witness for C6: two concrete redeliveries of the same payload
(receive counts 1 and 3) instantiating the first conjunct. -/
theorem dlq_C6_witness :
    processRecord { messageId := "m1", body := Body.parsed (some "business-error"),
                    approximateReceiveCount := 1, receiptHandle := "a" } =
      Except.ok { success := false, messageId := "m1",
                  error := some (JsError.businessLogicError "Invalid business logic") } :=
  (dlq_C6 { messageId := "m1", body := Body.parsed (some "business-error"),
            approximateReceiveCount := 1, receiptHandle := "a" }
          { messageId := "m1", body := Body.parsed (some "business-error"),
            approximateReceiveCount := 3, receiptHandle := "b" }
          rfl rfl).1

/-- C7: a `timeout` payload resolves (after its simulated delay, a pure
suspension in this model) to a failure outcome — processing terminates —
and its presence in a batch does not prevent the siblings: whenever every
other record's processing resolves, the whole batch resolves, with every
sibling's failure entries intact around the timeout entry. -/
theorem dlq_C7 (tr : SQSRecord) (h : tr.body = Body.parsed (some "timeout")) :
    processRecord tr = Except.ok { success := false, messageId := tr.messageId,
                                   error := some (JsError.jsError "Operation timed out") } ∧
    (∀ pre post : List SQSRecord, ∀ rs ss : List ProcessingResult,
      pre.map processRecord = rs.map Except.ok →
      post.map processRecord = ss.map Except.ok →
      handler { Records := pre ++ tr :: post } =
        Except.ok { batchItemFailures :=
          rs.filterMap failEntry ++
            { itemIdentifier := tr.messageId } :: ss.filterMap failEntry }) := by
  have ht := processRecord_timeout h
  refine ⟨ht, ?_⟩
  intro pre post rs ss hpre hpost
  apply handler_ok_iff.mpr
  refine ⟨rs ++ { success := false, messageId := tr.messageId,
                  error := some (JsError.jsError "Operation timed out") } :: ss, ?_, ?_⟩
  · simp [List.map_append, hpre, hpost, ht]
  · simp [List.filterMap_append, List.filterMap_cons, failEntry]

/-- Witness for C7: a concrete batch `[ok, timeout, temporary-error]`,
whose siblings both resolve; the batch resolves with the timeout entry
between the siblings' contributions. -/
theorem dlq_C7_witness :
    handler { Records :=
        [{ messageId := "m1", body := Body.parsed (some "ok"),
           approximateReceiveCount := 1, receiptHandle := "a" },
         { messageId := "mt", body := Body.parsed (some "timeout"),
           approximateReceiveCount := 1, receiptHandle := "b" },
         { messageId := "m3", body := Body.parsed (some "temporary-error"),
           approximateReceiveCount := 1, receiptHandle := "c" }] } =
      Except.ok { batchItemFailures :=
        [{ itemIdentifier := "mt" }, { itemIdentifier := "m3" }] } :=
  (dlq_C7 { messageId := "mt", body := Body.parsed (some "timeout"),
            approximateReceiveCount := 1, receiptHandle := "b" } rfl).2
    [{ messageId := "m1", body := Body.parsed (some "ok"),
       approximateReceiveCount := 1, receiptHandle := "a" }]
    [{ messageId := "m3", body := Body.parsed (some "temporary-error"),
       approximateReceiveCount := 1, receiptHandle := "c" }]
    [{ success := true, messageId := "m1", error := none }]
    [{ success := false, messageId := "m3",
       error := some (JsError.temporaryError "Temporary processing error") }]
    rfl rfl

/-- C8: the handler's outcome depends only on each record's `messageId`
and body: two batches agreeing on those (in order) but differing
arbitrarily in delivery metadata (receive count, receipt handle) yield
identical handler results. -/
theorem dlq_C8 (e1 e2 : SQSEvent)
    (h : e1.Records.map (fun r => (r.messageId, r.body)) =
         e2.Records.map (fun r => (r.messageId, r.body))) :
    handler e1 = handler e2 := by
  have hmap := map_processRecord_eq h
  simp only [handler]
  rw [hmap]

/-- Witness for C8: the same message delivered with receive count 1 and
receive count 3 (and different receipt handles) yields the same result. -/
theorem dlq_C8_witness :
    handler { Records :=
        [{ messageId := "m1", body := Body.parsed (some "business-error"),
           approximateReceiveCount := 1, receiptHandle := "a" }] } =
    handler { Records :=
        [{ messageId := "m1", body := Body.parsed (some "business-error"),
           approximateReceiveCount := 3, receiptHandle := "b" }] } :=
  dlq_C8 { Records :=
      [{ messageId := "m1", body := Body.parsed (some "business-error"),
         approximateReceiveCount := 1, receiptHandle := "a" }] }
    { Records :=
      [{ messageId := "m1", body := Body.parsed (some "business-error"),
         approximateReceiveCount := 3, receiptHandle := "b" }] }
    rfl

/-- C9: every `ProcessingResult` that `processRecord` resolves with has
its `error` field present exactly when `success` is false and carries the
input record's `messageId` on both the success and the failure path. -/
theorem dlq_C9 (r : SQSRecord) (res : ProcessingResult)
    (h : processRecord r = Except.ok res) :
    (res.error.isSome ↔ res.success = false) ∧ res.messageId = r.messageId :=
  ⟨(processRecord_ok_spec h).2, (processRecord_ok_spec h).1⟩

/-- Witness for C9: the invariant instantiated at a concrete record whose
body is the JSON literal `null` (a failure path). -/
theorem dlq_C9_witness :
    ((({ success := false, messageId := "m1",
         error := some JsError.typeError } : ProcessingResult).error.isSome ↔
      ({ success := false, messageId := "m1",
         error := some JsError.typeError } : ProcessingResult).success = false) ∧
     ({ success := false, messageId := "m1",
        error := some JsError.typeError } : ProcessingResult).messageId =
       ({ messageId := "m1", body := Body.nullValue,
          approximateReceiveCount := 1, receiptHandle := "a" } : SQSRecord).messageId) :=
  dlq_C9 { messageId := "m1", body := Body.nullValue,
           approximateReceiveCount := 1, receiptHandle := "a" }
         { success := false, messageId := "m1", error := some JsError.typeError }
         rfl

/-- C10: the failure entries preserve batch order — if record `ri`
precedes record `rj` in the batch and both resolve to failures, the
response literally lists `ri`'s identifier before `rj`'s: it is the
in-order collection of the per-record failure entries. -/
theorem dlq_C10 (A B C : List SQSRecord) (ri rj : SQSRecord)
    (resp : SQSBatchResponse)
    (hok : handler { Records := A ++ ri :: B ++ rj :: C } = Except.ok resp)
    (hi : recordFails ri) (hj : recordFails rj) :
    resp.batchItemFailures =
      A.filterMap recordFailEntry ++
        { itemIdentifier := ri.messageId } ::
          (B.filterMap recordFailEntry ++
            { itemIdentifier := rj.messageId } :: C.filterMap recordFailEntry) := by
  obtain ⟨rs, hmap, rfl⟩ := handler_ok_iff.mp hok
  have hfe := filterMap_failEntry_eq hmap
  have hri : recordFailEntry ri = some { itemIdentifier := ri.messageId } :=
    recordFailEntry_eq_some.mpr ⟨hi, rfl⟩
  have hrj : recordFailEntry rj = some { itemIdentifier := rj.messageId } :=
    recordFailEntry_eq_some.mpr ⟨hj, rfl⟩
  simp [hfe, List.filterMap_append, List.filterMap_cons, hri, hrj]

/-- Witness for C10: a concrete batch `[business-error, ok,
temporary-error]` in which the first and third records fail; the response
lists the first identifier before the third. -/
theorem dlq_C10_witness :
    ([({ messageId := "m2", body := Body.parsed (some "ok"),
         approximateReceiveCount := 1, receiptHandle := "b" } : SQSRecord)].filterMap
        recordFailEntry = ([] : List BatchItemFailure)) ∧
    ({ batchItemFailures :=
        [{ itemIdentifier := "m1" }, { itemIdentifier := "m3" }] } :
      SQSBatchResponse).batchItemFailures =
      ([] : List SQSRecord).filterMap recordFailEntry ++
        { itemIdentifier := "m1" } ::
          ([({ messageId := "m2", body := Body.parsed (some "ok"),
               approximateReceiveCount := 1, receiptHandle := "b" } : SQSRecord)].filterMap
              recordFailEntry ++
            { itemIdentifier := "m3" } ::
              ([] : List SQSRecord).filterMap recordFailEntry) :=
  ⟨rfl,
    dlq_C10 []
      [{ messageId := "m2", body := Body.parsed (some "ok"),
         approximateReceiveCount := 1, receiptHandle := "b" }]
      []
      { messageId := "m1", body := Body.parsed (some "business-error"),
        approximateReceiveCount := 1, receiptHandle := "a" }
      { messageId := "m3", body := Body.parsed (some "temporary-error"),
        approximateReceiveCount := 1, receiptHandle := "c" }
      { batchItemFailures := [{ itemIdentifier := "m1" }, { itemIdentifier := "m3" }] }
      rfl
      ⟨{ success := false, messageId := "m1",
         error := some (JsError.businessLogicError "Invalid business logic") }, rfl, rfl⟩
      ⟨{ success := false, messageId := "m3",
         error := some (JsError.temporaryError "Temporary processing error") }, rfl, rfl⟩⟩

end DlqDemo
